import Mathlib

/-!
# Verification of the distribd core against its design specification

Shallow embedding of the pure control flow of `src/distribd/raft.py`,
`src/distribd/mirror.py` and `src/distribd/registry.py`.  File and network
effects are replaced by explicit parameters (the RPC result, the bytes read,
the HTTP status) and by effect records in the return values (which actions
were submitted, whether a rename happened, whether a retry was scheduled).
Python integers are `Nat`/`Int`, Python lists are `List`, dictionaries are
association lists, and Python truthiness is modelled explicitly where the
source relies on it.
-/

namespace Distribd

/-! ## Data model: log entries (raft.py)

A log entry is a pair `(term, action)`; the action payload is opaque for the
consensus layer, so it is modelled as a `String`. -/

abbrev RaftEntry := Nat × String

/-- `NodeState` from raft.py: FOLLOWER / CANDIDATE / LEADER. -/
inductive NodeState where
  | follower
  | candidate
  | leader
deriving DecidableEq, Repr

/-- The fields of `Node.__init__` that the pure control flow reads or writes.
`commit_index` is an `Int` because `recv_append_entries` computes
`min(leader_commit, len(self.log) - 1)`, which is negative on an empty log. -/
structure Node where
  state : NodeState
  identifier : String
  log : List RaftEntry
  voted_for : Option String
  current_term : Nat
  commit_index : Int
deriving DecidableEq, Repr

/-- A fresh node as built by `Node.__init__` when no log file exists on disk:
empty log, no vote, `current_term = last_term = 0`, `commit_index = 0`,
state FOLLOWER. -/
def Node.init (identifier : String) : Node :=
  { state := .follower
    identifier := identifier
    log := []
    voted_for := none
    current_term := 0
    commit_index := 0 }

/-- `Node.last_term`: `self.log[-1][0]` if the log is nonempty, else 0. -/
def Node.last_term (n : Node) : Nat :=
  (n.log.getLast?.map Prod.fst).getD 0

/-- `Node.last_index`: `len(self.log)` (the log is 1-indexed on the wire). -/
def Node.last_index (n : Node) : Nat :=
  n.log.length

/-- Python truthiness of `self.voted_for` (an optional string): `None` and
the empty string are falsy. -/
def pyTruthy : Option String → Bool
  | none => false
  | some s => s ≠ ""

/-- Body of a POST `/append-entries` request. `leader_commit` is an `Int`
for the same reason as `Node.commit_index`. -/
structure AppendEntriesReq where
  term : Nat
  leader_id : String
  prev_index : Nat
  prev_term : Nat
  entries : List RaftEntry
  leader_commit : Int
deriving DecidableEq, Repr

/-- Body of a POST `/request-vote` request. -/
structure RequestVoteReq where
  term : Nat
  candidate_id : String
  last_index : Nat
  last_term : Nat
deriving DecidableEq, Repr

/-- `Node.maybe_become_follower`: a LEADER that sees a strictly higher term
steps down to FOLLOWER.  (The election-timeout reset is a timer effect and
has no representation here.) -/
def Node.maybe_become_follower (n : Node) (term : Nat) : Node :=
  if n.state = .leader ∧ n.current_term < term then { n with state := .follower } else n

/-- `Node.recv_append_entries` (raft.py lines 265-313), returning the updated
node and the boolean returned to the leader.  The flow is: possible
step-down, reject stale terms, reject `prev_index > last_index`, reject a
`prev_term` mismatch (the `if prev_index` truthiness test is `≠ 0`), then
append every received entry unconditionally (the source carries a FIXME in
place of the conflict-truncation step), then advance `commit_index` to
`min(leader_commit, len(log) - 1)` when `leader_commit > commit_index`.
`current_term` is never updated. -/
def Node.recv_append_entries (n0 : Node) (r : AppendEntriesReq) : Node × Bool :=
  let n := n0.maybe_become_follower r.term
  if r.term < n.current_term then
    (n, false)
  else if n.last_index < r.prev_index then
    (n, false)
  else if r.prev_index ≠ 0 ∧ (n.log.getD (r.prev_index - 1) (0, "")).1 ≠ r.prev_term then
    (n, false)
  else
    let n1 := { n with log := n.log ++ r.entries }
    if n1.commit_index < r.leader_commit then
      ({ n1 with commit_index := min r.leader_commit ((n1.log.length : Int) - 1) }, true)
    else
      (n1, true)

/-- `Node.recv_request_vote` (raft.py lines 315-340): reject stale terms;
reject when `term == current_term` and `voted_for` is truthy (whoever the
vote went to); reject a candidate whose `last_term` is smaller than ours;
reject a candidate whose `last_index` is smaller than ours; otherwise record
the vote and grant it.  `current_term` is never updated. -/
def Node.recv_request_vote (n0 : Node) (r : RequestVoteReq) : Node × Bool :=
  let n := n0.maybe_become_follower r.term
  if r.term < n.current_term then
    (n, false)
  else if r.term = n.current_term ∧ pyTruthy n.voted_for then
    (n, false)
  else if r.last_term < n.last_term then
    (n, false)
  else if r.last_index < n.last_index then
    (n, false)
  else
    ({ n with voted_for := some r.candidate_id }, true)

/-- `Node.add_entry` (raft.py lines 104-108): only a LEADER may append; the
entry is written as `(current_term, entry)` and `(last_term, last_index)` of
the grown log is returned.  A non-leader raises `NotALeader`, modelled as
`Except.error`. -/
def Node.add_entry (n : Node) (entry : String) : Except Unit (Node × Nat × Nat) :=
  if n.state ≠ NodeState.leader then
    .error ()
  else
    let n1 := { n with log := n.log ++ [(n.current_term, entry)] }
    .ok (n1, n1.last_term, n1.last_index)

/-! ## Reachability (for claim C2)

One step of the node's externally driven operations: receiving an
append-entries or request-vote RPC with arbitrary well-formed (type-correct)
payloads, a client write on a leader, and the election transitions of
`become_candidate` / `do_gather_votes` / `become_leader`. -/

inductive Step : Node → Node → Prop where
  | recv_append (n : Node) (r : AppendEntriesReq) :
      Step n (n.recv_append_entries r).1
  | recv_vote (n : Node) (r : RequestVoteReq) :
      Step n (n.recv_request_vote r).1
  | client_write (n n' : Node) (e : String) (t i : Nat)
      (h : n.add_entry e = .ok (n', t, i)) : Step n n'
  | timeout (n : Node) (h : n.state ≠ NodeState.leader) :
      Step n { n with state := .candidate }
  | election_round (n : Node) (h : n.state = NodeState.candidate) :
      Step n { n with current_term := n.current_term + 1, voted_for := some n.identifier }
  | win_election (n : Node) (h : n.state = NodeState.candidate) :
      Step n { n with state := .leader }

/-- States reachable from a freshly started node by the operations above. -/
inductive Reachable : Node → Prop where
  | init (identifier : String) : Reachable (Node.init identifier)
  | step {n n' : Node} : Reachable n → Step n n' → Reachable n'

/-- The invariant claimed by C2, exactly as the spec words it: for all
indexes `i < j`, `log[i].term ≤ log[j].term`. -/
def logTermsNondecreasing (l : List RaftEntry) : Prop :=
  ∀ i j : Fin l.length, (i : Nat) < (j : Nat) → (l.get i).1 ≤ (l.get j).1

instance (l : List RaftEntry) : Decidable (logTermsNondecreasing l) := by
  unfold logTermsNondecreasing
  infer_instance

/-! ### C1: concrete inputs -/

/-- A follower that already holds the single entry `(1, "a")`. -/
def nodeC1 : Node :=
  { state := .follower
    identifier := "127.0.0.1:8080"
    log := [(1, "a")]
    voted_for := none
    current_term := 1
    commit_index := 0 }

/-- A retransmitted append-entries message from a term-1 leader whose
`match_index` for this follower is still 0: `prev_index = 0`,
`entries = [(1, "a")]`.  The follower already holds `(1, "a")` at position 0
with the same term. -/
def reqC1 : AppendEntriesReq :=
  { term := 1
    leader_id := "127.0.0.1:8081"
    prev_index := 0
    prev_term := 0
    entries := [(1, "a")]
    leader_commit := 0 }

/-- C1: for an accepted append-entries request, an entry already present at
position i with the same term is claimed not to be duplicated at the tail.
Evaluating `recv_append_entries` at the failing input: the follower holds
`(1,"a")` at position 0, the request carries exactly that entry at position
0 with the same term and is accepted, yet the resulting log is
`[(1,"a"), (1,"a")]` — the entry was appended again at the tail, because the
source appends unconditionally where its own FIXME (raft.py line 298) says
the conflict-check/truncation step belongs. -/
theorem recv_append_entries_duplicates_same_term_entry :
    (nodeC1.recv_append_entries reqC1).2 = true ∧
      (nodeC1.recv_append_entries reqC1).1.log = [(1, "a"), (1, "a")] := by
  constructor <;> rfl

/-! ### C2: concrete reachable state with decreasing terms -/

/-- An append-entries message a term-2 leader with log
`[(1,"a"), (2,"b")]`, `match_index = 0` and `next_index = 1` sends (after
earlier failed heartbeats backed `next_index` off to 1). -/
def reqC2 : AppendEntriesReq :=
  { term := 2
    leader_id := "127.0.0.1:8081"
    prev_index := 0
    prev_term := 0
    entries := [(1, "a"), (2, "b")]
    leader_commit := 0 }

/-- The fresh follower after receiving `reqC2` once. -/
def nodeC2a : Node := ((Node.init "127.0.0.1:8080").recv_append_entries reqC2).1

/-- The same follower after the leader retransmits `reqC2` (e.g. because the
first response was lost in transit, which the leader counts as a failure). -/
def nodeC2b : Node := (nodeC2a.recv_append_entries reqC2).1

/-- C2: the terms-nondecreasing invariant is violated in a reachable state.
After the retransmission the log is
`[(1,"a"), (2,"b"), (1,"a"), (2,"b")]`: the term at index 1 is 2 and the
term at index 2 is 1, so `i < j` with `log[i].term > log[j].term`. -/
theorem reachable_state_with_decreasing_terms :
    Reachable nodeC2b ∧ ¬ logTermsNondecreasing nodeC2b.log := by
  refine ⟨?_, by decide⟩
  exact Reachable.step
    (Reachable.step (Reachable.init "127.0.0.1:8080") (Step.recv_append _ reqC2))
    (Step.recv_append _ reqC2)

/-! ### C3: the vote-grant rule -/

/-- The vote-grant condition as claim C3 words it (from spec §4.2): request
term at least the receiver's; not already voted this term for a *different*
candidate; candidate's `(last_term, last_index)` at least the receiver's
under *lexicographic* comparison. -/
def claimedVoteGrant (n : Node) (r : RequestVoteReq) : Bool :=
  (n.current_term ≤ r.term) &&
    !(r.term = n.current_term &&
        (match n.voted_for with
         | some c => c ≠ r.candidate_id
         | none => false)) &&
    ((n.last_term < r.last_term) ||
      (r.last_term = n.last_term && n.last_index ≤ r.last_index))

/-- A receiver with two term-1 entries: `last_term = 1`, `last_index = 2`. -/
def nodeC3 : Node :=
  { state := .follower
    identifier := "127.0.0.1:8080"
    log := [(1, "a"), (1, "b")]
    voted_for := none
    current_term := 1
    commit_index := 0 }

/-- A candidate with a strictly higher `last_term` (2) but a smaller
`last_index` (1) requesting a vote in the receiver's current term. -/
def reqC3 : RequestVoteReq :=
  { term := 1
    candidate_id := "127.0.0.1:8082"
    last_index := 1
    last_term := 2 }

/-- C3 fails on the code: the claimed (lexicographic) rule grants the vote
to a candidate with a strictly higher `last_term` and smaller `last_index`,
but `recv_request_vote` rejects it at the `last_index < self.last_index`
check. -/
theorem recv_request_vote_not_lexicographic :
    claimedVoteGrant nodeC3 reqC3 = true ∧
      (nodeC3.recv_request_vote reqC3).2 = false := by
  constructor <;> rfl

/-- C3 amended: `recv_request_vote` grants a vote iff the request term is at
least `current_term`, the receiver has not voted at all in a request for its
exact `current_term` (`voted_for` truthy rejects even the same candidate),
and the candidate's `last_term` AND `last_index` are each at least the
receiver's (componentwise, not lexicographic). -/
theorem recv_request_vote_grant_iff (n : Node) (r : RequestVoteReq) :
    (n.recv_request_vote r).2 = true ↔
      (n.current_term ≤ r.term ∧
        ¬(r.term = n.current_term ∧ pyTruthy n.voted_for = true) ∧
        n.last_term ≤ r.last_term ∧ n.last_index ≤ r.last_index) := by
  have hfields : ∀ m : Node, (m.maybe_become_follower r.term).current_term = m.current_term ∧
      (m.maybe_become_follower r.term).voted_for = m.voted_for ∧
      (m.maybe_become_follower r.term).log = m.log := by
    intro m
    unfold Node.maybe_become_follower
    split <;> exact ⟨rfl, rfl, rfl⟩
  obtain ⟨h1, h2, h3⟩ := hfields n
  unfold Node.recv_request_vote
  simp only [Node.last_term, Node.last_index, h1, h2, h3]
  split
  · simp only [Bool.false_eq_true, false_iff]
    omega
  · split
    · rename_i hv
      simp only [Bool.false_eq_true, false_iff]
      intro h
      exact h.2.1 ⟨hv.1, hv.2⟩
    · split
      · simp only [Bool.false_eq_true, false_iff]
        omega
      · split
        · simp only [Bool.false_eq_true, false_iff]
          omega
        · simp only [true_iff]
          rename_i hterm hvote hlt hli
          refine ⟨by omega, ?_, by omega, by omega⟩
          intro h
          exact hvote ⟨h.1, h.2⟩

/-! ### C4: the follower's commit-index update -/

/-- An accepted request against a fresh node: one new entry, so the claimed
new `commit_index` is `min(leader_commit, last_index) = min(1, 1) = 1`. -/
def reqC4 : AppendEntriesReq :=
  { term := 1
    leader_id := "127.0.0.1:8081"
    prev_index := 0
    prev_term := 0
    entries := [(1, "a")]
    leader_commit := 1 }

/-- C4 fails on the code: after this accepted request the follower's log has
length 1, claim C4 demands `commit_index = min(1, 1) = 1`, but the code
computes `min(leader_commit, len(log) - 1) = min(1, 0) = 0`. -/
theorem recv_append_entries_commit_index_off_by_one :
    ((Node.init "127.0.0.1:8080").recv_append_entries reqC4).2 = true ∧
      ((Node.init "127.0.0.1:8080").recv_append_entries reqC4).1.log.length = 1 ∧
      ((Node.init "127.0.0.1:8080").recv_append_entries reqC4).1.commit_index = 0 ∧
      min reqC4.leader_commit
        ((((Node.init "127.0.0.1:8080").recv_append_entries reqC4).1.log.length : Int)) = 1 := by
  refine ⟨rfl, rfl, rfl, rfl⟩

/-- C4 amended: for every accepted append-entries request, the follower's
new `commit_index` is `min(leader_commit, len(log') - 1)` — one less than
the 1-based `last_index` — and only when `leader_commit` strictly exceeds
the old `commit_index`; otherwise `commit_index` is left unchanged.  (Here
`len(log') = len(log) + len(entries)` is the post-append length.) -/
theorem recv_append_entries_commit_index_update (n : Node) (r : AppendEntriesReq)
    (hacc : (n.recv_append_entries r).2 = true) :
    (n.recv_append_entries r).1.commit_index =
      if n.commit_index < r.leader_commit then
        min r.leader_commit ((n.log.length + r.entries.length : Int) - 1)
      else
        n.commit_index := by
  have hfields : (n.maybe_become_follower r.term).commit_index = n.commit_index ∧
      (n.maybe_become_follower r.term).log = n.log := by
    unfold Node.maybe_become_follower
    split <;> exact ⟨rfl, rfl⟩
  obtain ⟨h1, h2⟩ := hfields
  unfold Node.recv_append_entries at hacc ⊢
  simp only [h1, h2, List.length_append, Nat.cast_add] at hacc ⊢
  by_cases c1 : r.term < (n.maybe_become_follower r.term).current_term
  · rw [if_pos c1] at hacc
    simp at hacc
  · rw [if_neg c1] at hacc ⊢
    by_cases c2 : (n.maybe_become_follower r.term).last_index < r.prev_index
    · rw [if_pos c2] at hacc
      simp at hacc
    · rw [if_neg c2] at hacc ⊢
      by_cases c3 : r.prev_index ≠ 0 ∧ (n.log.getD (r.prev_index - 1) (0, "")).1 ≠ r.prev_term
      · rw [if_pos c3] at hacc
        simp at hacc
      · rw [if_neg c3] at hacc ⊢
        by_cases c4 : n.commit_index < r.leader_commit
        · rw [if_pos c4, if_pos c4]
        · rw [if_neg c4, if_neg c4]

/-- Witness for `recv_append_entries_commit_index_update` at `reqC4` on a
fresh node: the request is accepted and the new `commit_index` is
`min(1, (0 + 1) - 1) = 0`. -/
theorem recv_append_entries_commit_index_update_witness :
    ((Node.init "127.0.0.1:8080").recv_append_entries reqC4).2 = true ∧
      ((Node.init "127.0.0.1:8080").recv_append_entries reqC4).1.commit_index =
        if (Node.init "127.0.0.1:8080").commit_index < reqC4.leader_commit then
          min reqC4.leader_commit
            (((Node.init "127.0.0.1:8080").log.length + reqC4.entries.length : Int) - 1)
        else
          (Node.init "127.0.0.1:8080").commit_index :=
  ⟨by decide, recv_append_entries_commit_index_update (Node.init "127.0.0.1:8080") reqC4 (by decide)⟩

/-! ### C5: leader bookkeeping in `do_heartbeat` -/

/-- Per-peer leader state (`RemoteNode` in raft.py). -/
structure RemoteNode where
  identifier : String
  next_index : Nat
  match_index : Nat
deriving DecidableEq, Repr

/-- Python list slicing `l[i:]` with a possibly negative start index: a
non-negative start drops that many elements; a negative start counts from
the end (clamped at 0). -/
def pySliceFrom (l : List α) (i : Int) : List α :=
  if 0 ≤ i then l.drop i.toNat
  else l.drop ((l.length : Int) + i).toNat

/-- `Node.do_heartbeat` (raft.py lines 220-245) for one peer, with the RPC
result supplied as `success`.  Returns the payload that was sent and the
updated peer record: `prev_index = match_index`;
`prev_term = log[prev_index - 1].term` when `prev_index` is truthy, else 0;
`entries = log[next_index - 1:]` (Python slice).  On failure `next_index` is
decremented only when it is `> 0`; on success `match_index` and `next_index`
each grow by `len(entries)`. -/
def Node.do_heartbeat (n : Node) (rn : RemoteNode) (success : Bool) :
    AppendEntriesReq × RemoteNode :=
  let prev_index := rn.match_index
  let prev_term := if prev_index ≠ 0 then (n.log.getD (prev_index - 1) (0, "")).1 else 0
  let entries := pySliceFrom n.log ((rn.next_index : Int) - 1)
  let payload : AppendEntriesReq :=
    { term := n.current_term
      leader_id := n.identifier
      prev_index := prev_index
      prev_term := prev_term
      entries := entries
      leader_commit := n.commit_index }
  if success then
    (payload, { rn with
      match_index := rn.match_index + entries.length
      next_index := rn.next_index + entries.length })
  else
    (payload, if 0 < rn.next_index then { rn with next_index := rn.next_index - 1 } else rn)

/-- A term-1 leader with a single entry. -/
def nodeC5 : Node :=
  { state := .leader
    identifier := "127.0.0.1:8080"
    log := [(1, "a")]
    voted_for := some "127.0.0.1:8080"
    current_term := 1
    commit_index := 0 }

/-- A peer whose `next_index` has already been backed off to 1. -/
def remoteC5 : RemoteNode :=
  { identifier := "127.0.0.1:8081"
    next_index := 1
    match_index := 0 }

/-- C5 fails on the code: claim C5 says a failed response sets
`next_index ← max(1, next_index − 1)`, so it never drops below 1; but from
`next_index = 1` a failure takes the code's `next_index` to 0. -/
theorem do_heartbeat_next_index_drops_to_zero :
    ((nodeC5.do_heartbeat remoteC5 false).2).next_index < 1 := by
  decide

/-- C5 amended: on a successful response `match_index` becomes
`prev_index + len(entries)` (the sent `prev_index` being the old
`match_index`) and `next_index` becomes `next_index + len(entries)` — not
`match_index + 1` in general; on a failed response `match_index` is
untouched and `next_index` is decremented by one when positive and left at
0 otherwise (never clamped up to 1). -/
theorem do_heartbeat_peer_bookkeeping (n : Node) (rn : RemoteNode) :
    ((n.do_heartbeat rn true).2.match_index =
        (n.do_heartbeat rn true).1.prev_index +
          (n.do_heartbeat rn true).1.entries.length ∧
      (n.do_heartbeat rn true).2.next_index =
        rn.next_index + (n.do_heartbeat rn true).1.entries.length) ∧
    ((n.do_heartbeat rn false).2.match_index = rn.match_index ∧
      (n.do_heartbeat rn false).2.next_index = rn.next_index - 1) := by
  have hf : (n.do_heartbeat rn false).2 =
      if 0 < rn.next_index then { rn with next_index := rn.next_index - 1 } else rn := rfl
  refine ⟨⟨rfl, rfl⟩, ?_, ?_⟩
  · rw [hf]
    split <;> rfl
  · rw [hf]
    split
    · rfl
    · omega

/-! ### C6: log recovery on startup (`Node.load_log`, raft.py lines 78-92)

The on-disk log is one JSON `[term, action]` record per line.  Parsing a
single line is abstracted as a function `parse : String → Option RaftEntry`
(`json.loads` + `tuple`, with `none` for a line that raises).  `load_log`
iterates over the lines in order and appends each parsed record; a line that
fails to parse raises out of `__init__`, modelled as `Except.error ()` — the
source has no exception handling around `json.loads`, so this aborts startup
wherever the bad line sits. -/

def load_log (parse : String → Option RaftEntry) : List String → Except Unit (List RaftEntry)
  | [] => .ok []
  | line :: rest =>
    match parse line with
    | none => .error ()
    | some e => (load_log parse rest).map (fun es => e :: es)

/-- Recovery as claim C6 (and spec §4.1/§7) words it: a malformed final line
is discarded and the well-formed prefix is restored; a malformed earlier
line aborts startup. -/
def load_log_claimed (parse : String → Option RaftEntry) (lines : List String) :
    Except Unit (List RaftEntry) :=
  match lines.mapM parse with
  | some es => .ok es
  | none =>
    match lines.dropLast.mapM parse with
    | some es => .ok es
    | none => .error ()

/-- A parser that rejects exactly the line `"bad"`. -/
def parseC6 (s : String) : Option RaftEntry :=
  if s = "bad" then none else some (1, s)

/-- C6 fails on the code: on a file whose final line is malformed and whose
earlier lines are well-formed, the claim demands successful recovery of the
prefix `[(1, "a")]`, but `load_log` aborts startup (`json.loads` raises with
no handler). -/
theorem load_log_aborts_on_trailing_corruption :
    load_log_claimed parseC6 ["a", "bad"] = .ok [(1, "a")] ∧
      load_log parseC6 ["a", "bad"] = .error () := by
  constructor <;> rfl

/-- C6 amended: recovery aborts on a malformed line wherever it sits — a
well-formed prefix followed by a malformed trailing line is not restored;
only a fully well-formed file recovers. -/
theorem load_log_trailing_corruption_fatal (parse : String → Option RaftEntry)
    (pre : List String) (bad : String)
    (hpre : ∀ l ∈ pre, (parse l).isSome) (hbad : parse bad = none) :
    load_log parse (pre ++ [bad]) = .error () := by
  induction pre with
  | nil =>
    simp only [List.nil_append, load_log, hbad]
  | cons l rest ih =>
    have hl : (parse l).isSome := hpre l (List.mem_cons_self l rest)
    obtain ⟨e, he⟩ := Option.isSome_iff_exists.mp hl
    have hrest := ih (fun x hx => hpre x (List.mem_cons_of_mem l hx))
    simp only [List.cons_append, load_log, he, List.append_eq]
    rw [hrest]
    rfl

/-- Witness for `load_log_trailing_corruption_fatal` at the concrete file
`["a", "bad"]` with `parseC6`. -/
theorem load_log_trailing_corruption_fatal_witness :
    ((∀ l ∈ ["a"], (parseC6 l).isSome) ∧ parseC6 "bad" = none) ∧
      load_log parseC6 (["a"] ++ ["bad"]) = .error () :=
  ⟨⟨by decide, by decide⟩,
    load_log_trailing_corruption_fatal parseC6 ["a"] "bad" (by decide) (by decide)⟩

/-! ## Mirror engine (`src/distribd/mirror.py`)

The four reducer indexes of `Mirrorer` are Python dicts of sets, modelled as
association lists of duplicate-free member lists (Python `set.add` is an
insert-if-absent).  `dispatch` performs only the index mutations; the task
spawns it triggers do not touch the indexes. -/

/-- The closed set of registry actions (`RegistryActions` in actions.py),
carrying the fields each handler reads. -/
inductive RegistryAction where
  | blobStored (hash location : String)
  | blobDeleted (hash : String)
  | blobMounted (hash repository : String)
  | manifestStored (hash location : String)
  | manifestDeleted (hash : String)
  | manifestMounted (hash repository : String)
  | hashTagged (repository tag hash : String)
deriving DecidableEq, Repr

/-- `dict` of `set`s: key to duplicate-free member list. -/
abbrev SetMap := List (String × List String)

/-- Python `set.add`: insert only when absent. -/
def setInsert (s : List String) (x : String) : List String :=
  if x ∈ s then s else s ++ [x]

/-- `d.setdefault(k, set()).add(x)`: add `x` to the set at `k`, creating the
binding if absent. -/
def SetMap.setdefault_add : SetMap → String → String → SetMap
  | [], k, x => [(k, [x])]
  | (k', s) :: rest, k, x =>
    if k' = k then (k', setInsert s x) :: rest
    else (k', s) :: SetMap.setdefault_add rest k x

/-- Python `d.get(k)` / `k in d` on an association list. -/
def assocFind? {α : Type} : List (String × α) → String → Option α
  | [], _ => none
  | (k', v) :: rest, k => if k' = k then some v else assocFind? rest k

/-- Membership of `x` in the set bound to `k` (absent key = empty set). -/
def SetMap.memAt (m : SetMap) (k x : String) : Prop :=
  x ∈ (assocFind? m k).getD []

instance (m : SetMap) (k x : String) : Decidable (m.memAt k x) := by
  unfold SetMap.memAt
  infer_instance

/-- The fields of `Mirrorer.__init__` that the dispatch / download decision
logic reads: own identifier, the peer table (location to registry address
and port), and the four indexes. -/
structure Mirrorer where
  identifier : String
  peers : List (String × String × String)
  blob_locations : SetMap
  blob_repos : SetMap
  manifest_locations : SetMap
  manifest_repos : SetMap
deriving DecidableEq, Repr

/-- `Mirrorer.should_download_blob` (mirror.py lines 117-132): the hash must
be known to `blob_repos` and `blob_locations`, its location set must be
nonempty, and we must not already be one of the locations. -/
def Mirrorer.should_download_blob (m : Mirrorer) (hash : String) : Bool :=
  match assocFind? m.blob_repos hash with
  | none => false
  | some _ =>
    match assocFind? m.blob_locations hash with
    | none => false
    | some locations =>
      if locations.length = 0 then false
      else if m.identifier ∈ locations then false
      else true

/-- `Mirrorer.urls_for_blob` (mirror.py lines 134-147): pick the first
repository associated with the hash, then build one URL per known-peer
location. -/
def Mirrorer.urls_for_blob (m : Mirrorer) (hash : String) : List String :=
  let repo := ((assocFind? m.blob_repos hash).getD []).headD ""
  ((assocFind? m.blob_locations hash).getD []).filterMap fun location =>
    match assocFind? m.peers location with
    | none => none
    | some (address, port) => some s!"http://{address}:{port}/v2/{repo}/blobs/{hash}"

/-- The Python return value of `Mirrorer._do_transfer`: bare `return`
(`None`), `return False`, or `return True`.  Only `True` is truthy. -/
inductive PyRet where
  | pnone
  | pfalse
  | ptrue
deriving DecidableEq, Repr

/-- The outcome of the single HTTP GET a transfer may issue, abstracted:
response status and the hex SHA-256 of the streamed body. -/
structure TransferNet where
  status : Nat
  body_hash_hex : String
deriving DecidableEq, Repr

/-- Effects of one `_do_transfer` call: its Python return value, whether an
HTTP request was issued, and whether the temp file was renamed onto the
destination. -/
structure TransferOutcome where
  ret : PyRet
  http_requested : Bool
  renamed : Bool
deriving DecidableEq, Repr

/-- `Mirrorer._do_transfer` (mirror.py lines 60-115) with the filesystem
and network supplied as parameters: if the destination already exists or
there are no URLs yet, bare `return` with no request; otherwise GET one of
the URLs; non-200 is `return False`; a digest mismatch of the streamed body
unlinks the temp file and is `return False`; otherwise the temp file is
renamed to the destination, waiters are drained, and it is `return True`. -/
def do_transfer (hash : String) (urls : List String) (dest_exists : Bool)
    (net : TransferNet) : TransferOutcome :=
  if dest_exists then
    { ret := .pnone, http_requested := false, renamed := false }
  else if urls.isEmpty then
    { ret := .pnone, http_requested := false, renamed := false }
  else if net.status ≠ 200 then
    { ret := .pfalse, http_requested := true, renamed := false }
  else if "sha256:" ++ net.body_hash_hex ≠ hash then
    { ret := .pfalse, http_requested := true, renamed := false }
  else
    { ret := .ptrue, http_requested := true, renamed := true }

/-- Effects of one `Mirrorer.do_download_blob` invocation (retries are
scheduled, not run). -/
structure DownloadOutcome where
  actions : List RegistryAction
  retry_scheduled : Bool
  http_requested : Bool
deriving DecidableEq, Repr

/-- `Mirrorer.do_download_blob` (mirror.py lines 149-180): bail out unless
`should_download_blob`; run `_do_transfer`; only a truthy (`True`) result
submits `blob-stored(hash, self)` and returns — every other result falls
through to scheduling a retry. -/
def Mirrorer.do_download_blob (m : Mirrorer) (hash : String) (dest_exists : Bool)
    (net : TransferNet) : DownloadOutcome :=
  if ¬ m.should_download_blob hash then
    { actions := [], retry_scheduled := false, http_requested := false }
  else
    let t := do_transfer hash (m.urls_for_blob hash) dest_exists net
    if t.ret = .ptrue then
      { actions := [.blobStored hash m.identifier]
        retry_scheduled := false
        http_requested := t.http_requested }
    else
      { actions := [], retry_scheduled := true, http_requested := t.http_requested }

/-- `Mirrorer.dispatch` (mirror.py lines 244-272), restricted to its index
mutations: `blob-stored` / `blob-mounted` / `manifest-stored` /
`manifest-mounted` each add one element to one index via
`setdefault(...).add(...)`; every other action type matches no branch and
leaves the state untouched. -/
def Mirrorer.dispatch (m : Mirrorer) (entry : RegistryAction) : Mirrorer :=
  match entry with
  | .blobStored hash location =>
    { m with blob_locations := m.blob_locations.setdefault_add hash location }
  | .blobMounted hash repository =>
    { m with blob_repos := m.blob_repos.setdefault_add hash repository }
  | .manifestStored hash location =>
    { m with manifest_locations := m.manifest_locations.setdefault_add hash location }
  | .manifestMounted hash repository =>
    { m with manifest_repos := m.manifest_repos.setdefault_add hash repository }
  | .blobDeleted _ => m
  | .manifestDeleted _ => m
  | .hashTagged _ _ _ => m

/-! ### C9: dispatch is monotone on the four indexes -/

theorem setInsert_subset (s : List String) (x : String) : s ⊆ setInsert s x := by
  unfold setInsert
  split
  · exact fun a ha => ha
  · exact fun a ha => List.mem_append_left _ ha

theorem setdefault_add_mono (m : SetMap) (k x key v : String)
    (h : m.memAt key v) : (m.setdefault_add k x).memAt key v := by
  induction m with
  | nil =>
    simp [SetMap.memAt, assocFind?] at h
  | cons p rest ih =>
    obtain ⟨k', s⟩ := p
    unfold SetMap.setdefault_add
    by_cases hk : k' = k
    · rw [if_pos hk]
      unfold SetMap.memAt assocFind? at h ⊢
      by_cases hkey : k' = key
      · rw [if_pos hkey] at h ⊢
        simp only [Option.getD_some] at h ⊢
        exact setInsert_subset s x h
      · rw [if_neg hkey] at h ⊢
        exact h
    · rw [if_neg hk]
      unfold SetMap.memAt assocFind? at h ⊢
      by_cases hkey : k' = key
      · rw [if_pos hkey] at h ⊢
        exact h
      · rw [if_neg hkey] at h ⊢
        exact ih h

/-- C9: `dispatch` is monotone — an element present in any of the four
indexes is still present after dispatching any entry — and the three action
types with no branch (`blob-deleted`, `manifest-deleted`, `hash-tagged`)
leave the whole state exactly unchanged. -/
theorem dispatch_monotone_and_inert (m : Mirrorer) (entry : RegistryAction) :
    (∀ k v, (m.blob_locations.memAt k v → (m.dispatch entry).blob_locations.memAt k v) ∧
        (m.blob_repos.memAt k v → (m.dispatch entry).blob_repos.memAt k v) ∧
        (m.manifest_locations.memAt k v → (m.dispatch entry).manifest_locations.memAt k v) ∧
        (m.manifest_repos.memAt k v → (m.dispatch entry).manifest_repos.memAt k v)) ∧
      ((∀ h, m.dispatch (.blobDeleted h) = m) ∧
        (∀ h, m.dispatch (.manifestDeleted h) = m) ∧
        (∀ r t h, m.dispatch (.hashTagged r t h) = m)) := by
  refine ⟨?_, ⟨fun _ => rfl, fun _ => rfl, fun _ _ _ => rfl⟩⟩
  intro k v
  cases entry <;>
    exact ⟨fun h => by first | exact setdefault_add_mono _ _ _ _ _ h | exact h,
      fun h => by first | exact setdefault_add_mono _ _ _ _ _ h | exact h,
      fun h => by first | exact setdefault_add_mono _ _ _ _ _ h | exact h,
      fun h => by first | exact setdefault_add_mono _ _ _ _ _ h | exact h⟩

/-! ### C7: destination already present -/

/-- A mirrorer that should download blob `"sha256:h"`: one peer location
holds it, a repository references it, and we are not a location. -/
def mirrorC7 : Mirrorer :=
  { identifier := "127.0.0.1:9080"
    peers := [("127.0.0.1:9081", "127.0.0.1", "9081")]
    blob_locations := [("sha256:h", ["127.0.0.1:9081"])]
    blob_repos := [("sha256:h", ["alpine"])]
    manifest_locations := []
    manifest_repos := [] }

/-- An arbitrary network outcome; with the destination present no request is
made, so it is never consulted. -/
def netC7 : TransferNet :=
  { status := 200, body_hash_hex := "h" }

/-- C7 fails on the code: with the destination path already present,
`_do_transfer` takes the bare `return` (`None`) — so no HTTP request is
issued — but `None` is falsy in `do_download_blob`, so the stored-event path
is NOT taken (no `blob-stored` is submitted) and a retry IS scheduled,
contradicting the claimed success treatment. -/
theorem do_download_blob_existing_destination_retries :
    mirrorC7.should_download_blob "sha256:h" = true ∧
      mirrorC7.do_download_blob "sha256:h" true netC7 =
        { actions := [], retry_scheduled := true, http_requested := false } := by
  constructor <;> rfl

/-- C7 amended: whenever the download predicate holds and the destination
path already exists, no HTTP request is issued, but the transfer is not
treated as a success: no action is submitted and a retry is scheduled. -/
theorem do_download_blob_existing_destination (m : Mirrorer) (hash : String)
    (net : TransferNet) (hshould : m.should_download_blob hash = true) :
    m.do_download_blob hash true net =
      { actions := [], retry_scheduled := true, http_requested := false } := by
  unfold Mirrorer.do_download_blob
  rw [if_neg (by simp [hshould])]
  rfl

/-- Witness for `do_download_blob_existing_destination` at `mirrorC7`. -/
theorem do_download_blob_existing_destination_witness :
    mirrorC7.should_download_blob "sha256:h" = true ∧
      mirrorC7.do_download_blob "sha256:h" true netC7 =
        { actions := [], retry_scheduled := true, http_requested := false } :=
  ⟨by decide, do_download_blob_existing_destination mirrorC7 "sha256:h" netC7 (by decide)⟩

/-! ## Registry blob-upload finish (`src/distribd/registry.py`, `upload_finish`)

Bytes are lists of `Nat`; `hashlib.sha256(...).hexdigest()` over the bytes
fed to a session's hasher is abstracted as a parameter
`sha256hex : List Nat → String` (the hash algorithm itself is library code).
The session table maps a session id to the bytes its hasher has consumed so
far (from earlier PATCH chunks). -/

abbrev Bytes := List Nat

/-- Session table: session id to the bytes already fed to the hasher. -/
abbrev Sessions := List (String × Bytes)

/-- The parts of a PUT `/v2/{repository}/blobs/uploads/{session_id}` request
that `upload_finish` reads: the path parameters, the optional `digest` query
parameter (`request.query.get("digest", "")` defaults it to the empty
string), and the request body. -/
structure UploadFinishRequest where
  repository : String
  session_id : String
  digest_query : Option String
  body : Bytes
deriving DecidableEq, Repr

/-- The registry error raised by `upload_finish` on every failure path
(`exceptions.BlobUploadInvalid`). -/
inductive RegistryError where
  | blobUploadInvalid
deriving DecidableEq, Repr

/-- Modelled from the spec: the `distribd.exceptions` module is not under
src/ (only its callers are).  Spec scenario S2 gives the status of a
rejected blob-upload PUT: `PUT ?digest=sha256:invalid_hash_here → 400`, so
`BlobUploadInvalid` maps to HTTP 400. -/
def RegistryError.status : RegistryError → Nat
  | .blobUploadInvalid => 400

/-- Effects and result of one `upload_finish` call: the action batch handed
to `send_action` (empty when `send_action` was never called), whether the
upload file was renamed into the blob store, and the HTTP outcome (status
and `Docker-Content-Digest` header on success). -/
structure UploadFinishOutcome where
  actions : List RegistryAction
  renamed_to_blob_store : Bool
  response : Except RegistryError (Nat × String)
deriving Repr

/-- `upload_finish` (registry.py lines 194-257) with the hash function and
the commit result of `send_action` supplied as parameters: read the expected
digest from the query (default `""`); look up the session (missing session
raises `BlobUploadInvalid`); feed the PUT body to the session's hasher;
compute `digest = "sha256:" + hexdigest`; a mismatch with the expected
digest raises `BlobUploadInvalid` — before any rename and before any action
is submitted; otherwise rename the upload into the blob store, submit the
`blob-stored` + `blob-mounted` batch, raise `BlobUploadInvalid` if the batch
did not commit, else respond 201 with the digest. -/
def upload_finish (sha256hex : Bytes → String) (sessions : Sessions)
    (identifier : String) (req : UploadFinishRequest) (send_action_ok : Bool) :
    UploadFinishOutcome :=
  let expected_digest := req.digest_query.getD ""
  match assocFind? sessions req.session_id with
  | none =>
    { actions := [], renamed_to_blob_store := false, response := .error .blobUploadInvalid }
  | some hashed =>
    let hash := sha256hex (hashed ++ req.body)
    let digest := "sha256:" ++ hash
    if expected_digest ≠ digest then
      { actions := [], renamed_to_blob_store := false, response := .error .blobUploadInvalid }
    else
      let batch : List RegistryAction :=
        [.blobStored hash identifier, .blobMounted hash req.repository]
      if send_action_ok then
        { actions := batch, renamed_to_blob_store := true, response := .ok (201, digest) }
      else
        { actions := batch, renamed_to_blob_store := true, response := .error .blobUploadInvalid }

/-! ### C8: a mismatched digest is rejected before any event or rename -/

/-- C8: whenever the supplied digest differs from the digest computed over
the uploaded bytes, `upload_finish` raises `BlobUploadInvalid` (HTTP 400),
submits no action batch, and never renames the upload into the blob store
— for every hash function, session table, body and `send_action` result. -/
theorem upload_finish_digest_mismatch_rejected (sha256hex : Bytes → String)
    (sessions : Sessions) (identifier : String) (req : UploadFinishRequest)
    (send_action_ok : Bool) (hashed : Bytes)
    (hsession : assocFind? sessions req.session_id = some hashed)
    (hmismatch : req.digest_query.getD "" ≠ "sha256:" ++ sha256hex (hashed ++ req.body)) :
    upload_finish sha256hex sessions identifier req send_action_ok =
      { actions := []
        renamed_to_blob_store := false
        response := .error .blobUploadInvalid } ∧
      RegistryError.status .blobUploadInvalid = 400 := by
  refine ⟨?_, rfl⟩
  unfold upload_finish
  rw [hsession]
  exact if_pos hmismatch

/-- The S2 request of the spec: body `"9080"` (bytes 57, 48, 56, 48),
supplied digest `sha256:invalid_hash_here`. -/
def reqC8 : UploadFinishRequest :=
  { repository := "alpine"
    session_id := "sess"
    digest_query := some "sha256:invalid_hash_here"
    body := [57, 48, 56, 48] }

/-- A one-session table whose hasher has consumed nothing yet. -/
def sessionsC8 : Sessions := [("sess", [])]

theorem upload_finish_digest_mismatch_rejected_witness :
    (assocFind? sessionsC8 reqC8.session_id = some [] ∧
      reqC8.digest_query.getD "" ≠
        "sha256:" ++ (fun _ : Bytes => "aa") ([] ++ reqC8.body)) ∧
      upload_finish (fun _ : Bytes => "aa") sessionsC8 "127.0.0.1:9080" reqC8 true =
        { actions := []
          renamed_to_blob_store := false
          response := .error .blobUploadInvalid } ∧
      RegistryError.status .blobUploadInvalid = 400 :=
  ⟨⟨by decide, by decide⟩,
    upload_finish_digest_mismatch_rejected (fun _ => "aa") sessionsC8 "127.0.0.1:9080"
      reqC8 true [] (by decide) (by decide)⟩

/-! ### C10: a missing digest parameter always fails -/

theorem sha256_digest_ne_empty (h : String) : "" ≠ "sha256:" ++ h := by
  intro habs
  have hlen := congrArg String.length habs
  rw [String.length_append] at hlen
  have h0 : ("" : String).length = 0 := rfl
  have h7 : ("sha256:" : String).length = 7 := rfl
  omega

/-- C10: a PUT with no `digest` query parameter always fails with
`BlobUploadInvalid` (HTTP 400), submits no action and renames nothing,
whatever the uploaded content hashes to: the expected digest defaults to
`""`, which no string of the form `"sha256:" ++ hex` can equal. -/
theorem upload_finish_missing_digest_rejected (sha256hex : Bytes → String)
    (sessions : Sessions) (identifier : String) (req : UploadFinishRequest)
    (send_action_ok : Bool) (hnone : req.digest_query = none) :
    upload_finish sha256hex sessions identifier req send_action_ok =
      { actions := []
        renamed_to_blob_store := false
        response := .error .blobUploadInvalid } ∧
      RegistryError.status .blobUploadInvalid = 400 := by
  refine ⟨?_, rfl⟩
  unfold upload_finish
  rw [hnone]
  cases hfind : assocFind? sessions req.session_id with
  | none => rfl
  | some hashed =>
    exact if_pos (sha256_digest_ne_empty (sha256hex (hashed ++ req.body)))

/-- A digest-less PUT of the body `"9080"`. -/
def reqC10 : UploadFinishRequest :=
  { repository := "alpine"
    session_id := "sess"
    digest_query := none
    body := [57, 48, 56, 48] }

/-- Witness for `upload_finish_missing_digest_rejected`: a digest-less PUT
of the body `"9080"` against an open session. -/
theorem upload_finish_missing_digest_rejected_witness :
    reqC10.digest_query = none ∧
      upload_finish (fun _ : Bytes => "aa") [("sess", [])] "127.0.0.1:9080" reqC10 true =
        { actions := []
          renamed_to_blob_store := false
          response := .error .blobUploadInvalid } ∧
      RegistryError.status .blobUploadInvalid = 400 :=
  ⟨rfl,
    upload_finish_missing_digest_rejected (fun _ => "aa") [("sess", [])] "127.0.0.1:9080"
      reqC10 true rfl⟩

end Distribd
